import Mathlib

/-
  Verification development for the LC-3 simulator in src/LC3.c.

  Modelling conventions (shallow embedding of the C source):
  - Every C variable of type int16_t is modelled as an Int that is kept in the
    canonical signed range [-32768, 32767].  The function i16 performs the
    implementation-defined int -> int16_t conversion (wrap modulo 2 to the 16),
    which is applied exactly where the C source stores an int expression into
    an int16_t object.  toU16 recovers the 16-bit unsigned pattern of a word.
  - The C global memory is int16_t memory[65536], but the source indexes it
    with int16_t expressions, so the index actually used is the SIGNED value
    of the address (negative for addresses with bit 15 set, which is an
    out-of-bounds access in the C program).  The model therefore keys mem by
    the signed index the source computes: mem is a total map Int -> Int, and
    the location read for address pattern a is mem (i16 a).  The predicate
    0 <= idx /\ idx < 65536 characterises the indices that are in bounds of
    the real 65536-word array; ramIndex a is the index the source uses.
  - The decode macros of lines 16-28 of LC3.c operate on the int promoted
    from the int16_t ir; they are modelled on the unsigned 16-bit pattern u:
    for example PCOFFSET9(ir) = (((int)ir) << 23) >> 23 equals
    signext 9 (u % 512), and TRPVECT8(ir) = (((int)ir) << 24) >> 24 equals
    signext 8 (u % 256) (note: SIGN extension of bit 7, as in the source).
  - The psr bit fields n, z, p are modelled as Nat values 0 or 1; the junk
    field is ignored (only printState reads it).
  - Output to stdout (the display drain printf of line 129) is modelled as a
    list of emitted character codes; the fprintf plus getchar plus return 1 of
    the default switch branch (lines 186-188) is modelled by the fatal result,
    which records the printed opcode and pc and the single stdin read that
    getchar performs.  Exit codes: return 0 after the loop, return 1 on the
    default branch.
-/

namespace LC3

/-- Implementation-defined int -> int16_t conversion: wrap into [-32768, 32767]. -/
def i16 (x : Int) : Int := (x + 32768) % 65536 - 32768

/-- Unsigned 16-bit pattern of an int16_t value. -/
def toU16 (x : Int) : Nat := (x % 65536).toNat

/-- Sign extension of a w-bit pattern to a signed integer. -/
def signext (w : Nat) (v : Nat) : Int :=
  if v < 2 ^ (w - 1) then (v : Int) else (v : Int) - 2 ^ w

/-- OPCODE(instr) = instr >> 12 & 0x000F (line 16). -/
def opcode (u : Nat) : Nat := u / 4096 % 16

/-- REG1(instr) = instr >> 9 & 0x0007, bits 11:9 (line 17). -/
def reg1 (u : Nat) : Nat := u / 512 % 8

/-- REG2(instr) = instr >> 6 & 0x0007, bits 8:6 (line 18). -/
def reg2 (u : Nat) : Nat := u / 64 % 8

/-- REG3(instr) = instr & 0x0007, bits 2:0 (line 19). -/
def reg3 (u : Nat) : Nat := u % 8

/-- IMMBIT(instr) = (instr & 0x0020) >> 5 (line 20). -/
def immbit (u : Nat) : Nat := u / 32 % 2

/-- IMMVAL(instr) = (instr << 27) >> 27: sign-extended bits 4:0 (line 21). -/
def immval (u : Nat) : Int := signext 5 (u % 32)

/-- PCOFFSET11(instr) = (instr << 21) >> 21: sign-extended bits 10:0 (line 22). -/
def pcoffset11 (u : Nat) : Int := signext 11 (u % 2048)

/-- PCOFFSET9(instr) = (instr << 23) >> 23: sign-extended bits 8:0 (line 23). -/
def pcoffset9 (u : Nat) : Int := signext 9 (u % 512)

/-- PCOFFSET6(instr) = (instr << 26) >> 26: sign-extended bits 5:0 (line 24). -/
def pcoffset6 (u : Nat) : Int := signext 6 (u % 64)

/-- BRN(instr) = instr >> 11 & 1 (line 25). -/
def brn (u : Nat) : Nat := u / 2048 % 2

/-- BRZ(instr) = instr >> 10 & 1 (line 26). -/
def brz (u : Nat) : Nat := u / 1024 % 2

/-- BRP(instr) = instr >> 9 & 1 (line 27). -/
def brp (u : Nat) : Nat := u / 512 % 2

/-- TRPVECT8(instr) = (instr << 24) >> 24 (line 28): this SIGN-extends bits 7:0. -/
def trpvect8 (u : Nat) : Int := signext 8 (u % 256)

/-- DSR = (int16_t) 0xFE04 (line 45): the signed value is -508. -/
def DSRaddr : Int := -508

/-- DDR = (int16_t) 0xFE06 (line 48): the signed value is -506. -/
def DDRaddr : Int := -506

/-- MCR_ADRESS = (int16_t) 0xFFFE (line 50): the signed value is -2. -/
def MCRaddr : Int := -2

/-- DISPLAY_READY = 0x8000 stored into the int16_t display.status: -32768. -/
def DISPLAY_READY : Int := -32768

/-- MCR_POWER(mcr) = (mcr & 0x8000) >> 15 (line 51): bit 15 of the pattern. -/
def mcrPower (x : Int) : Nat := toU16 x / 32768

/-- The index with which the source subscripts int16_t memory[65536] for an
address whose unsigned 16-bit pattern is a: the address variables are int16_t,
so the subscript is the signed value of a (negative when bit 15 of a is set). -/
def ramIndex (a : Nat) : Int := i16 a

/-- The whole simulator state of LC3.c: globals mcr, memory, regs, pc, ir,
psr (n, z, p bit fields as 0 or 1) and the display device (status, data).
mem is keyed by the signed int16_t index the source uses to subscript
memory[] (see the header comment). -/
structure Machine where
  mcr : Int
  mem : Int → Int
  regs : Nat → Int
  pc : Int
  ir : Int
  psrN : Nat
  psrZ : Nat
  psrP : Nat
  dispStatus : Int
  dispData : Int

/-- regs[i] = v. -/
def setReg (m : Machine) (i : Nat) (v : Int) : Machine :=
  { m with regs := fun j => if j = i then v else m.regs j }

/-- memory[a] = v (a is the signed int16_t index the source computes). -/
def setMem (m : Machine) (a : Int) (v : Int) : Machine :=
  { m with mem := fun b => if b = a then v else m.mem b }

/-- updatePSR_CC (lines 256-260). -/
def updateCC (m : Machine) (v : Int) : Machine :=
  if v < 0 then { m with psrN := 1, psrZ := 0, psrP := 0 }
  else if v = 0 then { m with psrN := 0, psrZ := 1, psrP := 0 }
  else { m with psrN := 0, psrZ := 0, psrP := 1 }

/-- addImm (lines 277-284). -/
def addImm (m : Machine) : Machine :=
  let u := toU16 m.ir
  let m2 := setReg m (reg1 u) (i16 (m.regs (reg2 u) + immval u))
  updateCC m2 (m2.regs (reg1 u))

/-- addRegs (lines 286-293). -/
def addRegs (m : Machine) : Machine :=
  let u := toU16 m.ir
  let m2 := setReg m (reg1 u) (i16 (m.regs (reg2 u) + m.regs (reg3 u)))
  updateCC m2 (m2.regs (reg1 u))

/-- Bitwise AND of two int16_t values. -/
def and16 (a b : Int) : Int := i16 ((Nat.land (toU16 a) (toU16 b) : Nat) : Int)

/-- andImm (lines 295-302). -/
def andImm (m : Machine) : Machine :=
  let u := toU16 m.ir
  let m2 := setReg m (reg1 u) (and16 (m.regs (reg2 u)) (immval u))
  updateCC m2 (m2.regs (reg1 u))

/-- andRegs (lines 304-312). -/
def andRegs (m : Machine) : Machine :=
  let u := toU16 m.ir
  let m2 := setReg m (reg1 u) (and16 (m.regs (reg2 u)) (m.regs (reg3 u)))
  updateCC m2 (m2.regs (reg1 u))

/-- not (lines 314-320).  Present in the source but never dispatched by the
switch of main (opcode 9 has no case); kept here for completeness. -/
def notOp (m : Machine) : Machine :=
  let u := toU16 m.ir
  let m2 := setReg m (reg1 u) (i16 (-(m.regs (reg2 u)) - 1))
  updateCC m2 (m2.regs (reg1 u))

/-- The branch condition (psr.n & n) | (psr.z & z) | (psr.p & p) of line 328. -/
def brCond (m : Machine) (u : Nat) : Nat :=
  Nat.lor (Nat.lor (Nat.land m.psrN (brn u)) (Nat.land m.psrZ (brz u)))
    (Nat.land m.psrP (brp u))

/-- br (lines 322-330). -/
def br (m : Machine) : Machine :=
  let u := toU16 m.ir
  if brCond m u ≠ 0 then { m with pc := i16 (m.pc + pcoffset9 u) } else m

/-- ld (lines 332-352): the if-else chain is the inline MMIO routing. -/
def ld (m : Machine) : Machine :=
  let u := toU16 m.ir
  let a := i16 (m.pc + pcoffset9 u)
  let v := if a = DSRaddr then m.dispStatus
           else if a = DDRaddr then m.dispData
           else if a = MCRaddr then m.mcr
           else m.mem a
  let m2 := setReg m (reg1 u) v
  updateCC m2 (m2.regs (reg1 u))

/-- ldi (lines 354-383): both the pointer fetch and the final read carry the
inline MMIO routing chain. -/
def ldi (m : Machine) : Machine :=
  let u := toU16 m.ir
  let a1 := i16 (m.pc + pcoffset9 u)
  let a2 := if a1 = DSRaddr then m.dispStatus
            else if a1 = DDRaddr then m.dispData
            else if a1 = MCRaddr then m.mcr
            else m.mem a1
  let v := if a2 = DSRaddr then m.dispStatus
           else if a2 = DDRaddr then m.dispData
           else if a2 = MCRaddr then m.mcr
           else m.mem a2
  let m2 := setReg m (reg1 u) v
  updateCC m2 (m2.regs (reg1 u))

/-- ldr (lines 385-406). -/
def ldr (m : Machine) : Machine :=
  let u := toU16 m.ir
  let a := i16 (m.regs (reg2 u) + pcoffset6 u)
  let v := if a = DSRaddr then m.dispStatus
           else if a = DDRaddr then m.dispData
           else if a = MCRaddr then m.mcr
           else m.mem a
  let m2 := setReg m (reg1 u) v
  updateCC m2 (m2.regs (reg1 u))

/-- st (lines 408-426). -/
def st (m : Machine) : Machine :=
  let u := toU16 m.ir
  let a := i16 (m.pc + pcoffset9 u)
  let v := m.regs (reg1 u)
  if a = DSRaddr then { m with dispStatus := v }
  else if a = DDRaddr then { m with dispData := v, dispStatus := 0 }
  else if a = MCRaddr then { m with mcr := v }
  else setMem m a v

/-- sti (lines 428-461). -/
def sti (m : Machine) : Machine :=
  let u := toU16 m.ir
  let a1 := i16 (m.pc + pcoffset9 u)
  let a2 := if a1 = DSRaddr then m.dispStatus
            else if a1 = DDRaddr then m.dispData
            else if a1 = MCRaddr then m.mcr
            else m.mem a1
  let v := m.regs (reg1 u)
  if a2 = DSRaddr then { m with dispStatus := v }
  else if a2 = DDRaddr then { m with dispData := v, dispStatus := 0 }
  else if a2 = MCRaddr then { m with mcr := v }
  else setMem m a2 v

/-- str (lines 463-481). -/
def str (m : Machine) : Machine :=
  let u := toU16 m.ir
  let a := i16 (m.regs (reg2 u) + pcoffset6 u)
  let v := m.regs (reg1 u)
  if a = DSRaddr then { m with dispStatus := v }
  else if a = DDRaddr then { m with dispData := v, dispStatus := 0 }
  else if a = MCRaddr then { m with mcr := v }
  else setMem m a v

/-- lea (lines 483-489). -/
def lea (m : Machine) : Machine :=
  let u := toU16 m.ir
  let m2 := setReg m (reg1 u) (i16 (m.pc + pcoffset9 u))
  updateCC m2 (m2.regs (reg1 u))

/-- jsr (lines 491-496): regs[7] = pc; pc += pcoffset. -/
def jsr (m : Machine) : Machine :=
  { setReg m 7 m.pc with pc := i16 (m.pc + pcoffset11 (toU16 m.ir)) }

/-- ret (lines 498-501): pc = regs[7]. -/
def ret (m : Machine) : Machine := { m with pc := m.regs 7 }

/-- trap (lines 503-508): regs[7] = pc; pc = memory[TRPVECT8(ir)].  The
vector read subscripts memory[] directly (no MMIO routing), with the
sign-extended vector as index. -/
def trap (m : Machine) : Machine :=
  { setReg m 7 m.pc with pc := m.mem (trpvect8 (toU16 m.ir)) }

/-- Spec-side MMIO router read, written from section 4.2 of the spec:
the aliased device field when the address matches DSR, DDR or MCR,
otherwise the RAM cell.  Used to compare the inline chains of the
handlers against the router abstraction of the spec. -/
def specRead (m : Machine) (a : Int) : Int :=
  if a = DSRaddr then m.dispStatus
  else if a = DDRaddr then m.dispData
  else if a = MCRaddr then m.mcr
  else m.mem a

/-- Spec-side MMIO router write, written from section 4.2 of the spec. -/
def specWrite (m : Machine) (a : Int) (v : Int) : Machine :=
  if a = DSRaddr then { m with dispStatus := v }
  else if a = DDRaddr then { m with dispData := v, dispStatus := 0 }
  else if a = MCRaddr then { m with mcr := v }
  else setMem m a v

/-- The display drain at the top of the loop body (lines 128-131): when
display.status == DISPLAY_SET (0), emit (0x00FF & display.data) and set
status back to DISPLAY_READY.  Returns the new machine and the emitted
character codes. -/
def drainEmit (m : Machine) : Machine × List Nat :=
  if m.dispStatus = 0 then
    ({ m with dispStatus := DISPLAY_READY }, [toU16 m.dispData % 256])
  else (m, [])

/-- The fetch of lines 132-133 after the drain: ir = memory[pc]; pc++. -/
def postFetch (m : Machine) : Machine :=
  { (drainEmit m).1 with
    ir := (drainEmit m).1.mem ((drainEmit m).1.pc),
    pc := i16 ((drainEmit m).1.pc + 1) }

/-- The switch of lines 137-190, in source case order; none models the
default branch (opcodes 8, 9 and 13 reach it). -/
def dispatch (m : Machine) : Option Machine :=
  if opcode (toU16 m.ir) = 1 then
    some (if immbit (toU16 m.ir) = 1 then addImm m else addRegs m)
  else if opcode (toU16 m.ir) = 5 then
    some (if immbit (toU16 m.ir) = 1 then andImm m else andRegs m)
  else if opcode (toU16 m.ir) = 2 then some (ld m)
  else if opcode (toU16 m.ir) = 10 then some (ldi m)
  else if opcode (toU16 m.ir) = 6 then some (ldr m)
  else if opcode (toU16 m.ir) = 0 then some (br m)
  else if opcode (toU16 m.ir) = 3 then some (st m)
  else if opcode (toU16 m.ir) = 11 then some (sti m)
  else if opcode (toU16 m.ir) = 7 then some (str m)
  else if opcode (toU16 m.ir) = 14 then some (lea m)
  else if opcode (toU16 m.ir) = 4 then some (jsr m)
  else if opcode (toU16 m.ir) = 12 then some (ret m)
  else if opcode (toU16 m.ir) = 15 then some (trap m)
  else none

/-- Result of one iteration of the while body: either the next machine with
the characters emitted by the drain, or the fatal default branch carrying
the emitted characters, the printed opcode and the printed pc value. -/
inductive CycleResult where
  | ok : Machine → List Nat → CycleResult
  | fatal : List Nat → Nat → Int → CycleResult

/-- One iteration of the while body (lines 128-190): drain the display,
fetch and increment pc, dispatch.  The default branch prints the opcode and
the (already incremented) pc to stderr. -/
def cycle (m : Machine) : CycleResult :=
  match dispatch (postFetch m) with
  | some m' => CycleResult.ok m' (drainEmit m).2
  | none =>
    CycleResult.fatal (drainEmit m).2 (opcode (toU16 (postFetch m).ir))
      (postFetch m).pc

/-- The machine after one non-fatal iteration. -/
def cycleMachine (m : Machine) : Machine :=
  match cycle m with
  | CycleResult.ok m' _ => m'
  | CycleResult.fatal _ _ _ => postFetch m

/-- The characters emitted during one iteration. -/
def cycleOut (m : Machine) : List Nat :=
  match cycle m with
  | CycleResult.ok _ em => em
  | CycleResult.fatal em _ _ => em

/-- How the process left the loop. -/
inductive Outcome where
  | halted : Outcome
  | fatal : Nat → Int → Outcome
  | fuelOut : Outcome
deriving DecidableEq

/-- Observable result of running the loop: characters written to stdout,
number of instruction fetches performed, number of getchar calls (stdin
reads), and how the loop ended. -/
structure RunResult where
  out : List Nat
  fetches : Nat
  stdinReads : Nat
  outcome : Outcome
deriving DecidableEq

/-- The fetch-execute loop of lines 127-191, fuel-bounded.  The while
condition MCR_POWER(mcr) is tested before anything else; when it is 0 the
loop exits and main returns 0.  The default switch branch performs one
getchar (line 187) and returns 1. -/
def run : Nat → Machine → RunResult
  | 0, _ => ⟨[], 0, 0, Outcome.fuelOut⟩
  | fuel + 1, m =>
    if mcrPower m.mcr = 0 then ⟨[], 0, 0, Outcome.halted⟩
    else
      match cycle m with
      | CycleResult.ok m' em =>
        let r := run fuel m'
        ⟨em ++ r.out, r.fetches + 1, r.stdinReads, r.outcome⟩
      | CycleResult.fatal em opc ppc => ⟨em, 1, 1, Outcome.fatal opc ppc⟩

/-- Exit status of the process for each way out of the loop (return 0 at
line 202, return 1 at line 188). -/
def exitCodeOf : Outcome → Option Int
  | Outcome.halted => some 0
  | Outcome.fatal _ _ => some 1
  | Outcome.fuelOut => none

/-- Number of stdin reads each outcome implies. -/
def stdinSpec : Outcome → Nat
  | Outcome.fatal _ _ => 1
  | _ => 0

/-- Machine state after loadFile set pc and loaded mem0, and init (lines
249-254) ran: display.status = 0x8000, display.data = 0, psr.z = 1 (psr.n
and psr.p are zero-initialised globals), mcr = 0x8000.  The int16_t values
of 0x8000 are -32768. -/
def initMachine (startPc : Int) (mem0 : Int → Int) : Machine :=
  ⟨-32768, mem0, fun _ => 0, startPc, 0, 0, 1, 0, -32768, 0⟩

/-- The N/Z/P bit fields as a triple. -/
def flags (m : Machine) : Nat × Nat × Nat := (m.psrN, m.psrZ, m.psrP)

/-- The CC triple updatePSR_CC produces for a signed value v. -/
def ccFlags (v : Int) : Nat × Nat × Nat :=
  if v < 0 then (1, 0, 0) else if v = 0 then (0, 1, 0) else (0, 0, 1)

/-- Exactly one of N, Z, P is 1. -/
def exactlyOneCC (m : Machine) : Prop :=
  flags m = (1, 0, 0) ∨ flags m = (0, 1, 0) ∨ flags m = (0, 0, 1)

/-- The unsigned pattern of the instruction the next iteration will fetch. -/
def fetchedU (m : Machine) : Nat := toU16 (m.mem m.pc)

/-- The opcodes the switch dispatches to a CC-setting handler. -/
def ccSetting (o : Nat) : Prop :=
  o = 1 ∨ o = 5 ∨ o = 2 ∨ o = 10 ∨ o = 6 ∨ o = 14

/-- A memory image holding a single instruction word w at address 0. -/
def instrAt (w : Int) : Int → Int := fun a => if a = 0 then w else 0

/-- A fresh machine about to execute the single instruction w at address 0. -/
def oneInstr (w : Int) : Machine := initMachine 0 (instrAt w)

/-- Machine for the C1 evaluation: ir = 0xF0FF (TRAP xFF, the int16_t value
-3841), pc = 5; memory holds 100 at signed index -1 and 200 at index 255. -/
def c1m : Machine :=
  ⟨-32768, fun a => if a = -1 then 100 else if a = 255 then 200 else 0,
    fun _ => 0, 5, -3841, 0, 1, 0, -32768, 0⟩

/-- Machine for the C2 read evaluation: ir = 0x6040 (LDR R0, R1, 0),
R1 = -32768 (the int16_t value of address 0x8000); memory holds 77 at
signed index -32768 and 55 at index 32768. -/
def c2m : Machine :=
  ⟨-32768, fun a => if a = -32768 then 77 else if a = 32768 then 55 else 0,
    fun j => if j = 1 then -32768 else 0, 0, 24640, 0, 1, 0, -32768, 0⟩

/-- Machine for the C2 write evaluation: ir = 0x7040 (STR R0, R1, 0),
R0 = 9, R1 = -32768. -/
def c2s : Machine :=
  ⟨-32768, fun a => if a = -32768 then 77 else if a = 32768 then 55 else 0,
    fun j => if j = 1 then -32768 else if j = 0 then 9 else 0,
    0, 28736, 0, 1, 0, -32768, 0⟩

/-- Machine for the C4 counterexample: ir = 0x30C0 (ST R0, offset 192),
pc = -700, so the store target is pc + 192 = -508 = DSR, and R0 = 0. -/
def c4m : Machine :=
  ⟨-32768, fun _ => 0, fun _ => 0, -700, 12480, 0, 1, 0, -32768, 0⟩

/-- Program for the C4 counterexample, loaded at 12288 (0x3000):
LD R1, 3 (R1 = 0xFE04 = DSR); LD R2, 3 (R2 = 0xFFFE = MCR);
STR R0, R1, 0 (stores 0 to DSR: marks a character pending without any DDR
store); STR R3, R2, 0 (stores 0 to MCR: halt).  Data words at 12292, 12293. -/
def dsrMem : Int → Int := fun a =>
  if a = 12288 then 8707
  else if a = 12289 then 9219
  else if a = 12290 then 28736
  else if a = 12291 then 30336
  else if a = 12292 then -508
  else if a = 12293 then -2
  else 0

/-- The C4 counterexample machine: dsrMem loaded, pc = 12288, initialised. -/
def dsrDemo : Machine := initMachine 12288 dsrMem

/-- Machine for the C4 witness: a pending character (status 0, data 65). -/
def c4wm : Machine := ⟨-32768, instrAt 0, fun _ => 0, 0, 0, 0, 1, 0, 0, 65⟩

/-- Machine for the C5 witness: about to execute STR R0, R1, 0 (0x7040) at
address 0 with R1 = -2 (MCR) and R0 = 0: the store clears the MCR. -/
def c5m : Machine :=
  ⟨-32768, instrAt 28736, fun j => if j = 1 then -2 else 0,
    0, 0, 0, 1, 0, -32768, 0⟩

/-- The machine after the MCR-clearing cycle from c5m. -/
def c5m' : Machine :=
  ⟨0, instrAt 28736, fun j => if j = 1 then -2 else 0,
    1, 28736, 0, 1, 0, -32768, 0⟩

/-- The machine after one ADD R0, R0, 1 (0x1021) cycle from oneInstr 4129. -/
def c6m' : Machine :=
  ⟨-32768, instrAt 4129, fun j => if j = 0 then 1 else 0,
    1, 4129, 0, 0, 1, -32768, 0⟩

/-- Machine whose next instruction has opcode 8 (word 0x8000 = -32768):
reaches the fatal default branch. -/
def fatalDemo : Machine := oneInstr (-32768)

/-! Helper lemmas. -/

theorem i16_i16_add (a b : Int) : i16 (i16 a + b) = i16 (a + b) := by
  unfold i16; omega

theorem setReg_regs_same (m : Machine) (i : Nat) (v : Int) :
    (setReg m i v).regs i = v := by
  unfold setReg; simp

theorem updateCC_flags (m : Machine) (v : Int) :
    flags (updateCC m v) = ccFlags v := by
  unfold updateCC ccFlags flags; split_ifs <;> rfl

theorem updateCC_regs (m : Machine) (v : Int) :
    (updateCC m v).regs = m.regs := by
  unfold updateCC; split_ifs <;> rfl

theorem eo_of_cc {x : Machine} {v : Int} (h : flags x = ccFlags v) :
    exactlyOneCC x := by
  unfold exactlyOneCC; rw [h]; unfold ccFlags; split_ifs
  · exact Or.inl rfl
  · exact Or.inr (Or.inl rfl)
  · exact Or.inr (Or.inr rfl)

theorem drain_pc (m : Machine) : (drainEmit m).1.pc = m.pc := by
  unfold drainEmit; split_ifs <;> rfl

theorem drain_mem (m : Machine) : (drainEmit m).1.mem = m.mem := by
  unfold drainEmit; split_ifs <;> rfl

theorem drain_flags (m : Machine) : flags (drainEmit m).1 = flags m := by
  unfold drainEmit flags; split_ifs <;> rfl

theorem pf_ir (m : Machine) : (postFetch m).ir = m.mem m.pc := by
  unfold postFetch; rw [drain_mem, drain_pc]

theorem pf_irU (m : Machine) : toU16 (postFetch m).ir = fetchedU m := by
  unfold fetchedU; rw [pf_ir]

theorem pf_pc (m : Machine) : (postFetch m).pc = i16 (m.pc + 1) := by
  unfold postFetch; rw [drain_pc]

theorem pf_regs (m : Machine) : (postFetch m).regs = m.regs := by
  unfold postFetch drainEmit; split_ifs <;> rfl

theorem pf_psrN (m : Machine) : (postFetch m).psrN = m.psrN := by
  unfold postFetch drainEmit; split_ifs <;> rfl

theorem pf_psrZ (m : Machine) : (postFetch m).psrZ = m.psrZ := by
  unfold postFetch drainEmit; split_ifs <;> rfl

theorem pf_psrP (m : Machine) : (postFetch m).psrP = m.psrP := by
  unfold postFetch drainEmit; split_ifs <;> rfl

theorem pf_flags (m : Machine) : flags (postFetch m) = flags m := by
  unfold flags; rw [pf_psrN, pf_psrZ, pf_psrP]

theorem brCond_pf (m : Machine) (u : Nat) :
    brCond (postFetch m) u = brCond m u := by
  unfold brCond; rw [pf_psrN, pf_psrZ, pf_psrP]

theorem addImm_cc (m : Machine) :
    flags (addImm m) = ccFlags ((addImm m).regs (reg1 (toU16 m.ir))) := by
  simp only [addImm, updateCC_flags, updateCC_regs, setReg_regs_same]

theorem addRegs_cc (m : Machine) :
    flags (addRegs m) = ccFlags ((addRegs m).regs (reg1 (toU16 m.ir))) := by
  simp only [addRegs, updateCC_flags, updateCC_regs, setReg_regs_same]

theorem andImm_cc (m : Machine) :
    flags (andImm m) = ccFlags ((andImm m).regs (reg1 (toU16 m.ir))) := by
  simp only [andImm, updateCC_flags, updateCC_regs, setReg_regs_same]

theorem andRegs_cc (m : Machine) :
    flags (andRegs m) = ccFlags ((andRegs m).regs (reg1 (toU16 m.ir))) := by
  simp only [andRegs, updateCC_flags, updateCC_regs, setReg_regs_same]

theorem ld_cc (m : Machine) :
    flags (ld m) = ccFlags ((ld m).regs (reg1 (toU16 m.ir))) := by
  simp only [ld, updateCC_flags, updateCC_regs, setReg_regs_same]

theorem ldi_cc (m : Machine) :
    flags (ldi m) = ccFlags ((ldi m).regs (reg1 (toU16 m.ir))) := by
  simp only [ldi, updateCC_flags, updateCC_regs, setReg_regs_same]

theorem ldr_cc (m : Machine) :
    flags (ldr m) = ccFlags ((ldr m).regs (reg1 (toU16 m.ir))) := by
  simp only [ldr, updateCC_flags, updateCC_regs, setReg_regs_same]

theorem lea_cc (m : Machine) :
    flags (lea m) = ccFlags ((lea m).regs (reg1 (toU16 m.ir))) := by
  simp only [lea, updateCC_flags, updateCC_regs, setReg_regs_same]

theorem br_flags (m : Machine) : flags (br m) = flags m := by
  simp only [br]; split_ifs <;> rfl

theorem st_flags (m : Machine) : flags (st m) = flags m := by
  simp only [st]; split_ifs <;> rfl

theorem sti_flags (m : Machine) : flags (sti m) = flags m := by
  simp only [sti]; split_ifs <;> rfl

theorem str_flags (m : Machine) : flags (str m) = flags m := by
  simp only [str]; split_ifs <;> rfl

theorem jsr_flags (m : Machine) : flags (jsr m) = flags m := rfl

theorem ret_flags (m : Machine) : flags (ret m) = flags m := rfl

theorem trap_flags (m : Machine) : flags (trap m) = flags m := rfl

theorem st_eq (m : Machine) :
    st m = specWrite m (i16 (m.pc + pcoffset9 (toU16 m.ir)))
      (m.regs (reg1 (toU16 m.ir))) := rfl

theorem sti_eq (m : Machine) :
    sti m = specWrite m
      (specRead m (i16 (m.pc + pcoffset9 (toU16 m.ir))))
      (m.regs (reg1 (toU16 m.ir))) := rfl

theorem ld_reads (m : Machine) :
    (ld m).regs (reg1 (toU16 m.ir)) =
      specRead m (i16 (m.pc + pcoffset9 (toU16 m.ir))) := by
  simp only [ld, specRead, updateCC_regs, setReg_regs_same]

theorem ldi_reads (m : Machine) :
    (ldi m).regs (reg1 (toU16 m.ir)) =
      specRead m (specRead m (i16 (m.pc + pcoffset9 (toU16 m.ir)))) := by
  simp only [ldi, specRead, updateCC_regs, setReg_regs_same]

theorem lea_val (m : Machine) :
    (lea m).regs (reg1 (toU16 m.ir)) = i16 (m.pc + pcoffset9 (toU16 m.ir)) := by
  simp only [lea, updateCC_regs, setReg_regs_same]

theorem cycle_ok (m m' : Machine) (em : List Nat)
    (h : cycle m = CycleResult.ok m' em) :
    dispatch (postFetch m) = some m' := by
  unfold cycle at h
  cases hd : dispatch (postFetch m) with
  | none => rw [hd] at h; exact CycleResult.noConfusion h
  | some x => rw [hd] at h; injection h with h1 h2; rw [h1]

theorem cycleMachine_eq (m x : Machine)
    (hd : dispatch (postFetch m) = some x) : cycleMachine m = x := by
  unfold cycleMachine cycle; rw [hd]

theorem cycleOut_eq (m : Machine) : cycleOut m = (drainEmit m).2 := by
  unfold cycleOut cycle; cases dispatch (postFetch m) <;> rfl

theorem dispatch_eo (m m' : Machine) (h : dispatch m = some m')
    (h1 : exactlyOneCC m) : exactlyOneCC m' := by
  have hlt : opcode (toU16 m.ir) < 16 := Nat.mod_lt _ (by norm_num)
  unfold dispatch at h
  revert h
  generalize hg : opcode (toU16 m.ir) = o at hlt
  intro h
  interval_cases o <;> norm_num at h
  all_goals try (exact Option.noConfusion h)
  all_goals try (split_ifs at h)
  all_goals subst h
  · unfold exactlyOneCC at h1 ⊢; rw [br_flags]; exact h1
  · exact eo_of_cc (addImm_cc m)
  · exact eo_of_cc (addRegs_cc m)
  · exact eo_of_cc (ld_cc m)
  · unfold exactlyOneCC at h1 ⊢; rw [st_flags]; exact h1
  · unfold exactlyOneCC at h1 ⊢; rw [jsr_flags]; exact h1
  · exact eo_of_cc (andImm_cc m)
  · exact eo_of_cc (andRegs_cc m)
  · exact eo_of_cc (ldr_cc m)
  · unfold exactlyOneCC at h1 ⊢; rw [str_flags]; exact h1
  · exact eo_of_cc (ldi_cc m)
  · unfold exactlyOneCC at h1 ⊢; rw [sti_flags]; exact h1
  · unfold exactlyOneCC at h1 ⊢; rw [ret_flags]; exact h1
  · exact eo_of_cc (lea_cc m)
  · unfold exactlyOneCC at h1 ⊢; rw [trap_flags]; exact h1

theorem dispatch_cc (m m' : Machine) (h : dispatch m = some m')
    (hcc : ccSetting (opcode (toU16 m.ir))) :
    flags m' = ccFlags (m'.regs (reg1 (toU16 m.ir))) := by
  have hlt : opcode (toU16 m.ir) < 16 := Nat.mod_lt _ (by norm_num)
  unfold ccSetting at hcc
  unfold dispatch at h
  revert h
  generalize hg : opcode (toU16 m.ir) = o at hlt hcc
  intro h
  interval_cases o <;> norm_num at h
  all_goals try (exact Option.noConfusion h)
  all_goals try (norm_num at hcc)
  all_goals try (split_ifs at h)
  all_goals subst h
  · exact addImm_cc m
  · exact addRegs_cc m
  · exact ld_cc m
  · exact andImm_cc m
  · exact andRegs_cc m
  · exact ldr_cc m
  · exact ldi_cc m
  · exact lea_cc m

/-! Claim theorems. -/

/-- Claim C1 (code bug): the claim says TRAP sets PC to RAM at the
zero-extension of trapvect8, but TRPVECT8 of line 28 sign-extends bits 7:0,
so the instruction word 0xF0FF (int16_t value -3841, trapvect8 = 0xFF)
yields the vector -1 and the vector fetch subscripts memory[] at the
negative, out-of-bounds index -1 instead of at 255 (0x00FF).  The machine
c1m holds distinct words at signed indices -1 and 255 and the executed trap
takes the one at -1.  The R7 write of the incremented pc does hold. -/
theorem c1_trap_vector_sign_extended :
    trpvect8 (toU16 (-3841 : Int)) = -1 ∧
    trpvect8 (toU16 (-3841 : Int)) ≠ 255 ∧
    (trap c1m).pc = c1m.mem (-1) ∧
    (trap c1m).pc ≠ c1m.mem 255 ∧
    (trap c1m).regs 7 = c1m.pc := by decide

/-- Claim C2 (code bug): the claim says every routed non-device access
reaches element a of the 65,536-word RAM array in bounds, including
addresses with bit 15 set.  The source declares int16_t memory[65536] but
subscripts it with int16_t address values, so an address with bit 15 set is
used as a NEGATIVE index: for address 0x8000 the index is -32768, which is
not 32768 and not in [0, 65536).  In the model mem is keyed by that signed
index; the machines c2m and c2s show an executed LDR and STR at address
0x8000 (base register -32768) reading and writing the location at signed
index -32768, distinct from element 32768 of the array. -/
theorem c2_bit15_address_negative_index :
    ramIndex 32768 = -32768 ∧
    ¬ (0 ≤ ramIndex 32768) ∧
    ramIndex 32768 ≠ 32768 ∧
    (ldr c2m).regs 0 = c2m.mem (-32768) ∧
    (ldr c2m).regs 0 ≠ c2m.mem 32768 ∧
    (str c2s).mem (-32768) = 9 ∧
    (str c2s).mem 32768 = c2s.mem 32768 := by decide

/-- Claim C3: both memory resolutions of LDI and STI go through the MMIO
router: the inline if-else chains of ldi (lines 354-383) and sti (lines
428-461) coincide with two applications of the router of section 4.2 of
the spec (specRead and specWrite): the pointer fetch at pc plus the
sign-extended PCoffset9 and the final access at the fetched pointer each
map DSR, DDR and MCR to the device registers and reach RAM only otherwise. -/
theorem c3_ldi_sti_double_routing (m : Machine) :
    ldi m =
      updateCC
        (setReg m (reg1 (toU16 m.ir))
          (specRead m (specRead m (i16 (m.pc + pcoffset9 (toU16 m.ir))))))
        (specRead m (specRead m (i16 (m.pc + pcoffset9 (toU16 m.ir))))) ∧
    sti m =
      specWrite m (specRead m (i16 (m.pc + pcoffset9 (toU16 m.ir))))
        (m.regs (reg1 (toU16 m.ir))) := by
  constructor
  · simp only [ldi, specRead, setReg_regs_same]
  · exact sti_eq m

/-- Claim C4, counterexample: the claim says no output is produced by any
means other than a DDR store.  The ST handler applied to c4m (ST R0 with
target address DSR and R0 = 0) writes 0 to display.status without touching
display.data, and the program dsrDemo, whose only stores target DSR and
MCR (never DDR), makes the loop emit one character: its run output is [0],
not []. -/
theorem c4_output_without_ddr_store :
    (st c4m).dispStatus = 0 ∧
    (st c4m).dispData = c4m.dispData ∧
    (run 6 dsrDemo).out = [0] ∧
    (run 6 dsrDemo).outcome = Outcome.halted := by decide

/-- Claim C4, amended: a store routed to DDR sets display.data to the
stored value and display.status to 0x0000 (conjuncts 1 to 3, with the ST
handler equal to the spec router write); the loop emits a character at the
top of an iteration exactly when display.status is 0x0000, the character
being display.data masked to 8 bits (conjunct 4, covering both the ok and
the fatal iteration result); and the drain then restores display.status to
DISPLAY_READY (0x8000 as int16_t) before the fetch (conjunct 5).  Because
the emission is keyed only on display.status, any store that makes
display.status 0x0000 (such as storing 0 to DSR) also produces output. -/
theorem c4_display_emission (m : Machine) (v : Int) :
    st m = specWrite m (i16 (m.pc + pcoffset9 (toU16 m.ir)))
      (m.regs (reg1 (toU16 m.ir))) ∧
    (specWrite m DDRaddr v).dispData = v ∧
    (specWrite m DDRaddr v).dispStatus = 0 ∧
    cycleOut m = (if m.dispStatus = 0 then [toU16 m.dispData % 256] else []) ∧
    (m.dispStatus = 0 → (drainEmit m).1.dispStatus = DISPLAY_READY) := by
  refine ⟨st_eq m, rfl, rfl, ?_, ?_⟩
  · rw [cycleOut_eq]; unfold drainEmit; split_ifs <;> rfl
  · intro h; unfold drainEmit; rw [if_pos h]

/-- Claim C4 witness: on the concrete machine c4wm with a pending
character, the drain restores display.status to DISPLAY_READY. -/
theorem c4_display_emission_witness :
    (drainEmit c4wm).1.dispStatus = DISPLAY_READY :=
  (c4_display_emission c4wm 7).2.2.2.2 rfl

/-- Claim C5: when an executed store instruction (opcode 3, 11 or 7, via
ST, STI or STR) leaves the MCR with bit 15 clear, the loop terminates at
the top of the next iteration: the run from the resulting machine performs
no further instruction fetch, emits nothing, reads no stdin, and the
process exits with status 0. -/
theorem c5_mcr_clear_halts (m m' : Machine) (em : List Nat) (fuel : Nat)
    (hp : mcrPower m.mcr = 1)
    (hop : opcode (fetchedU m) = 3 ∨ opcode (fetchedU m) = 11 ∨
      opcode (fetchedU m) = 7)
    (hc : cycle m = CycleResult.ok m' em)
    (hm : mcrPower m'.mcr = 0) :
    run (fuel + 1) m' = ⟨[], 0, 0, Outcome.halted⟩ ∧
    exitCodeOf Outcome.halted = some 0 := by
  refine ⟨?_, rfl⟩
  simp [run, hm]

/-- Claim C5 witness: from c5m (about to execute STR R0, R1, 0 with
R1 = MCR and R0 = 0) the cycle yields c5m' with the MCR cleared, and the
run from c5m' halts at once with no fetch and exit status 0. -/
theorem c5_mcr_clear_halts_witness :
    run 1 c5m' = ⟨[], 0, 0, Outcome.halted⟩ ∧
    exitCodeOf Outcome.halted = some 0 :=
  c5_mcr_clear_halts c5m c5m' [] 0 (by decide)
    (Or.inr (Or.inr (by decide))) rfl (by decide)

/-- Claim C6: after initialization exactly one of N, Z, P is 1 (with Z
set); every non-fatal iteration of the loop preserves that exactly one of
the three flags is 1; and every CC-setting instruction (opcodes 1, 5, 2,
10, 6, 14) leaves all three flags equal to the triple updatePSR_CC derives
from the signed value of the destination register after the operation. -/
theorem c6_cc_exclusive :
    (∀ (s : Int) (mem0 : Int → Int), exactlyOneCC (initMachine s mem0)) ∧
    (∀ (m m' : Machine) (em : List Nat), exactlyOneCC m →
      cycle m = CycleResult.ok m' em → exactlyOneCC m') ∧
    (∀ (m m' : Machine) (em : List Nat), ccSetting (opcode (fetchedU m)) →
      cycle m = CycleResult.ok m' em →
      flags m' = ccFlags (m'.regs (reg1 (fetchedU m)))) := by
  refine ⟨?_, ?_, ?_⟩
  · intro s mem0; exact Or.inr (Or.inl rfl)
  · intro m m' em h1 hc
    have hd := cycle_ok m m' em hc
    have h1' : exactlyOneCC (postFetch m) := by
      unfold exactlyOneCC; rw [pf_flags]; exact h1
    exact dispatch_eo (postFetch m) m' hd h1'
  · intro m m' em hcc hc
    have hd := cycle_ok m m' em hc
    have hcc' : ccSetting (opcode (toU16 (postFetch m).ir)) := by
      rw [pf_irU]; exact hcc
    have h2 := dispatch_cc (postFetch m) m' hd hcc'
    rw [pf_irU] at h2
    exact h2

/-- Claim C6 witness: one ADD R0, R0, 1 cycle from a fresh machine yields
c6m', for which exactly one flag is set and the flags equal the CC triple
of the destination register value 1. -/
theorem c6_cc_exclusive_witness :
    exactlyOneCC c6m' ∧ flags c6m' = ccFlags (c6m'.regs 0) :=
  ⟨c6_cc_exclusive.2.1 (oneInstr 4129) c6m' [] (Or.inr (Or.inl rfl)) rfl,
    c6_cc_exclusive.2.2 (oneInstr 4129) c6m' [] (Or.inl rfl) rfl⟩

/-- Claim C7: every PC-relative instruction uses the incremented pc (the
value after the fetch of the word at the instruction address, i.e. the
instruction address plus 1 wrapped to 16 bits) as the base: the branch
target of BR, the effective addresses of LD, LDI, ST, STI (through the
router), the value LEA loads, and the jump target and link value of JSR
are all computed from i16 (m.pc + 1) plus the sign-extended offset. -/
theorem c7_pc_relative_incremented (m : Machine) :
    (opcode (fetchedU m) = 0 →
      (cycleMachine m).pc =
        if brCond m (fetchedU m) ≠ 0 then
          i16 (m.pc + 1 + pcoffset9 (fetchedU m))
        else i16 (m.pc + 1)) ∧
    (opcode (fetchedU m) = 2 →
      (cycleMachine m).regs (reg1 (fetchedU m)) =
        specRead (postFetch m) (i16 (m.pc + 1 + pcoffset9 (fetchedU m)))) ∧
    (opcode (fetchedU m) = 10 →
      (cycleMachine m).regs (reg1 (fetchedU m)) =
        specRead (postFetch m)
          (specRead (postFetch m) (i16 (m.pc + 1 + pcoffset9 (fetchedU m))))) ∧
    (opcode (fetchedU m) = 3 →
      cycleMachine m =
        specWrite (postFetch m) (i16 (m.pc + 1 + pcoffset9 (fetchedU m)))
          (m.regs (reg1 (fetchedU m)))) ∧
    (opcode (fetchedU m) = 11 →
      cycleMachine m =
        specWrite (postFetch m)
          (specRead (postFetch m) (i16 (m.pc + 1 + pcoffset9 (fetchedU m))))
          (m.regs (reg1 (fetchedU m)))) ∧
    (opcode (fetchedU m) = 14 →
      (cycleMachine m).regs (reg1 (fetchedU m)) =
        i16 (m.pc + 1 + pcoffset9 (fetchedU m))) ∧
    (opcode (fetchedU m) = 4 →
      (cycleMachine m).pc = i16 (m.pc + 1 + pcoffset11 (fetchedU m)) ∧
      (cycleMachine m).regs 7 = i16 (m.pc + 1)) := by
  refine ⟨?_, ?_, ?_, ?_, ?_, ?_, ?_⟩
  · intro h
    have hd : dispatch (postFetch m) = some (br (postFetch m)) := by
      unfold dispatch; rw [pf_irU, h]; norm_num
    rw [cycleMachine_eq m _ hd]
    simp only [br]
    rw [pf_irU, brCond_pf]
    by_cases hb : brCond m (fetchedU m) ≠ 0
    · rw [if_pos hb, if_pos hb]
      show i16 ((postFetch m).pc + pcoffset9 (fetchedU m)) = _
      rw [pf_pc, i16_i16_add]
    · rw [if_neg hb, if_neg hb]
      exact pf_pc m
  · intro h
    have hd : dispatch (postFetch m) = some (ld (postFetch m)) := by
      unfold dispatch; rw [pf_irU, h]; norm_num
    have h2 := ld_reads (postFetch m)
    rw [pf_irU, pf_pc, i16_i16_add] at h2
    rw [cycleMachine_eq m _ hd]
    exact h2
  · intro h
    have hd : dispatch (postFetch m) = some (ldi (postFetch m)) := by
      unfold dispatch; rw [pf_irU, h]; norm_num
    have h2 := ldi_reads (postFetch m)
    rw [pf_irU, pf_pc, i16_i16_add] at h2
    rw [cycleMachine_eq m _ hd]
    exact h2
  · intro h
    have hd : dispatch (postFetch m) = some (st (postFetch m)) := by
      unfold dispatch; rw [pf_irU, h]; norm_num
    have h2 := st_eq (postFetch m)
    rw [pf_irU, pf_pc, i16_i16_add, pf_regs] at h2
    rw [cycleMachine_eq m _ hd]
    exact h2
  · intro h
    have hd : dispatch (postFetch m) = some (sti (postFetch m)) := by
      unfold dispatch; rw [pf_irU, h]; norm_num
    have h2 := sti_eq (postFetch m)
    rw [pf_irU, pf_pc, i16_i16_add, pf_regs] at h2
    rw [cycleMachine_eq m _ hd]
    exact h2
  · intro h
    have hd : dispatch (postFetch m) = some (lea (postFetch m)) := by
      unfold dispatch; rw [pf_irU, h]; norm_num
    have h2 := lea_val (postFetch m)
    rw [pf_irU, pf_pc, i16_i16_add] at h2
    rw [cycleMachine_eq m _ hd]
    exact h2
  · intro h
    have hd : dispatch (postFetch m) = some (jsr (postFetch m)) := by
      unfold dispatch; rw [pf_irU, h]; norm_num
    rw [cycleMachine_eq m _ hd]
    constructor
    · show i16 ((postFetch m).pc + pcoffset11 (toU16 (postFetch m).ir)) = _
      rw [pf_irU, pf_pc, i16_i16_add]
    · show (setReg (postFetch m) 7 (postFetch m).pc).regs 7 = _
      rw [setReg_regs_same, pf_pc]

/-- Claim C7 witness: a taken BRz with offset 5 from address 0 sets pc to
6, and LEA R0 with offset 7 from address 0 loads 8 into R0. -/
theorem c7_pc_relative_incremented_witness :
    (cycleMachine (oneInstr 1029)).pc = 6 ∧
    (cycleMachine (oneInstr (-8185))).regs 0 = 8 :=
  ⟨(c7_pc_relative_incremented (oneInstr 1029)).1 (by decide),
    (c7_pc_relative_incremented (oneInstr (-8185))).2.2.2.2.2.1 (by decide)⟩

/-- Claim C8: a fetched instruction with opcode 8, 9 or 13 reaches the
default branch of the switch: the run performs that single fetch, prints
the opcode and the (incremented) pc to stderr, reads one character from
stdin (the getchar of line 187), stops without executing any further
instruction, and the process exits with status 1. -/
theorem c8_unsupported_opcode_fatal (m : Machine) (fuel : Nat)
    (hp : mcrPower m.mcr = 1)
    (hop : opcode (fetchedU m) = 8 ∨ opcode (fetchedU m) = 9 ∨
      opcode (fetchedU m) = 13) :
    run (fuel + 1) m =
      ⟨(drainEmit m).2, 1, 1,
        Outcome.fatal (opcode (fetchedU m)) (i16 (m.pc + 1))⟩ ∧
    exitCodeOf (Outcome.fatal (opcode (fetchedU m)) (i16 (m.pc + 1))) =
      some 1 := by
  refine ⟨?_, rfl⟩
  have hdn : dispatch (postFetch m) = none := by
    unfold dispatch; rw [pf_irU]
    rcases hop with h | h | h <;> rw [h] <;> norm_num
  have hcy : cycle m =
      CycleResult.fatal (drainEmit m).2 (opcode (fetchedU m))
        (i16 (m.pc + 1)) := by
    unfold cycle; rw [hdn, pf_irU, pf_pc]
  have hp' : ¬ (mcrPower m.mcr = 0) := by omega
  simp [run, hp', hcy]

/-- Claim C8 witness: fatalDemo fetches the word 0x8000 (opcode 8) and the
run stops after that one fetch with outcome fatal, one stdin read and exit
status 1. -/
theorem c8_unsupported_opcode_fatal_witness :
    run 1 fatalDemo = ⟨[], 1, 1, Outcome.fatal 8 1⟩ ∧
    exitCodeOf (Outcome.fatal 8 1) = some 1 :=
  c8_unsupported_opcode_fatal fatalDemo 0 (by decide) (Or.inl (by decide))

/-- Claim C9, counterexample: the claim says the simulator never reads
stdin on any path, but the default switch branch calls getchar (line 187):
running fatalDemo (one instruction with opcode 8) performs one stdin read. -/
theorem c9_stdin_read_exists :
    (run 1 fatalDemo).stdinReads = 1 ∧
    ¬ ((run 1 fatalDemo).stdinReads = 0) := by decide

/-- Claim C9, amended: the core reads stdin exactly when the loop ends in
the fatal unsupported-opcode branch (one getchar there), and never on a
clean halt or while fuel remains: the stdin read count of any run equals
the count stdinSpec assigns to its outcome. -/
theorem c9_stdin_only_fatal :
    ∀ (fuel : Nat) (m : Machine),
      (run fuel m).stdinReads = stdinSpec (run fuel m).outcome := by
  intro fuel
  induction fuel with
  | zero => intro m; rfl
  | succ n ih =>
    intro m
    by_cases hp : mcrPower m.mcr = 0
    · simp [run, hp, stdinSpec]
    · cases hc : cycle m with
      | ok m' em =>
        simp only [run, if_neg hp, hc]
        exact ih m'
      | fatal em opc ppc => simp [run, hp, hc, stdinSpec]

/-- Claim C10: the register fields REG1, REG2 and REG3 mask the
instruction word to 3 bits, so they always lie in 0..7 and every register
file subscript the handlers form (these fields and the literal 7) is in
bounds of the 8-entry regs array. -/
theorem c10_reg_fields_bounded :
    ∀ u : Nat, reg1 u ≤ 7 ∧ reg2 u ≤ 7 ∧ reg3 u ≤ 7 := by
  intro u
  unfold reg1 reg2 reg3
  omega

end LC3
